import Mathlib

/-!
Verification of the chatbot backend (`backend/app`): a shallow embedding of
the chat orchestrator, conversation store, retrieval wrapper, embedding
gateway, vector-store upsert, and webhook deduplication coordinator,
together with theorems about the specified behaviours.

External I/O (HTTP calls to the completion provider, the embedding provider,
the vector store, and the distributed cache) is modelled by explicit
environment parameters: an external call's outcome is an input to the
embedded function, and the `hashlib.md5` digest from the Python standard
library is an arbitrary function parameter `h : String → String`.
Machine floats in the source (similarity scores, vector components) are
modelled as rationals; no claim depends on float rounding.
Timestamps are modelled as integers (seconds).
-/

namespace Chatbot

/-- A user row (`models.User`): the schema declares `user_id` globally
unique; `platform` is a plain non-unique column. -/
structure UserRow where
  user_id : String
  platform : String
deriving DecidableEq, Repr

/-- A conversation row (`models.Conversation`): one turn, with a
server-assigned timestamp. -/
structure ConversationRow where
  user_id : String
  platform : String
  role : String
  message : String
  timestamp : Int
deriving DecidableEq, Repr

/-- The relational store: the `users` and `conversations` tables, each in
insertion order. -/
structure Db where
  users : List UserRow
  convs : List ConversationRow
deriving DecidableEq, Repr

/-- A message dict `{role, content}` as returned by history reads and sent
to the completion provider. -/
structure Msg where
  role : String
  content : String
deriving DecidableEq, Repr

/-- `ContextManager.get_or_create_user`: looks a user up by
`User.user_id == user_id` alone — the `platform` argument is not part of the
filter — and inserts a fresh row only when no row with that `user_id`
exists. -/
def get_or_create_user (users : List UserRow) (uid pf : String) :
    UserRow × List UserRow :=
  match users.find? (fun u => u.user_id == uid) with
  | some u => (u, users)
  | none =>
      let u : UserRow := ⟨uid, pf⟩
      (u, users ++ [u])

/-- `ContextManager.add_message`: ensure the user exists, then append one
conversation row; the timestamp is server-assigned (`now`). -/
def add_message (db : Db) (uid pf role msg : String) (now : Int) : Db :=
  { users := (get_or_create_user db.users uid pf).2
    convs := db.convs ++ [⟨uid, pf, role, msg, now⟩] }

/-- Reverse-chronological comparison used by
`order_by(Conversation.timestamp.desc())`. -/
def descByTime (a b : ConversationRow) : Bool :=
  b.timestamp ≤ a.timestamp

/-- Chronological comparison used by
`order_by(Conversation.timestamp.asc())`. -/
def ascByTime (a b : ConversationRow) : Bool :=
  a.timestamp ≤ b.timestamp

/-- The row-level query inside `ContextManager.get_conversation_history`:
filter to the (user_id, platform) pair, sort by timestamp descending, keep
the first `limit` rows, then reverse in memory to chronological order. -/
def conversationQuery (db : Db) (uid pf : String) (limit : Nat) :
    List ConversationRow :=
  ((((db.convs.filter
      (fun c => c.user_id == uid && c.platform == pf)).mergeSort
        descByTime).take limit).reverse)

/-- `ContextManager.get_conversation_history`: the row query mapped to
`{role, content}` dicts; `limit = none` falls back to `max_history`
(constructor default 10). -/
def get_conversation_history (db : Db) (uid pf : String)
    (limit : Option Nat) (maxHistory : Nat := 10) : List Msg :=
  (conversationQuery db uid pf (limit.getD maxHistory)).map
    (fun c => ⟨c.role, c.message⟩)

/-- The row-level query inside `ContextManager.get_recent_context`: filter
to the pair and to `timestamp >= now - hours`, sorted ascending. -/
def recentQuery (db : Db) (uid pf : String) (hours : Nat) (now : Int) :
    List ConversationRow :=
  ((db.convs.filter
      (fun c => c.user_id == uid && c.platform == pf
        && decide (now - (hours : Int) * 3600 ≤ c.timestamp))).mergeSort
    ascByTime)

/-- `ContextManager.get_recent_context`: the windowed row query mapped to
`{role, content}` dicts. -/
def get_recent_context (db : Db) (uid pf : String) (hours : Nat)
    (now : Int) : List Msg :=
  (recentQuery db uid pf hours now).map (fun c => ⟨c.role, c.message⟩)

/-- A retrieved knowledge passage as returned by `QdrantService.search`:
`{id, score, text, metadata}`. Scores are floats in the source, modelled
as rationals. -/
structure Passage where
  id : String
  score : ℚ
  text : String
deriving DecidableEq, Repr

/-- Two-decimal score rendering standing in for Python's `f"{score:.2f}"`
(the source formats an IEEE float; here the rational's scaled rounding). -/
def formatScore (q : ℚ) : String :=
  let cents : Int := round (q * 100)
  let sign := if cents < 0 then "-" else ""
  let a := cents.natAbs
  sign ++ toString (a / 100) ++ "." ++
    (if a % 100 < 10 then "0" else "") ++ toString (a % 100)

/-- One entry of the knowledge context built in `chat`:
`f"[Sumber {idx}] (Relevansi: {score:.2f})\n{text}"`. -/
def formatSource (idx : Nat) (p : Passage) : String :=
  "[Sumber " ++ toString idx ++ "] (Relevansi: " ++ formatScore p.score
    ++ ")\n" ++ p.text

/-- The `knowledge_context` string in `chat`: numbered entries (from 1)
joined by blank lines. -/
def knowledgeContext (ps : List Passage) : String :=
  String.intercalate "\n\n"
    ((List.enumFrom 1 ps).map (fun x => formatSource x.1 x.2))

/-- The fixed strict-mode system prompt in `chat` (main.py line 166). -/
def baseSystemPrompt : String :=
  "Kamu adalah asisten chatbot resmi untuk layanan KSJPS dan JPD Kota Yogyakarta.\n\nATURAN PENTING:\n- HANYA jawab pertanyaan tentang KSJPS, JPD, dan layanan Dinsosnakertrans Kota Yogyakarta\n- WAJIB gunakan informasi dari knowledge base yang diberikan\n- Jika pertanyaan di luar topik KSJPS/JPD, katakan: \"Maaf, saya hanya dapat membantu pertanyaan seputar KSJPS dan JPD. Silakan hubungi Dinsosnakertrans Kota Yogyakarta untuk informasi lainnya.\"\n- Jangan jawab pertanyaan umum, chitchat, atau topik lain\n- Selalu sopan dan profesional dalam Bahasa Indonesia"

/-- The fixed no-knowledge refusal returned when retrieval yields zero
passages (main.py line 186). -/
def refusalMsg : String :=
  "Maaf, saya hanya dapat membantu pertanyaan seputar KSJPS (Keluarga Sasaran Jaminan Perlindungan Sosial) dan JPD (Jaminan Pendidikan Daerah) di Kota Yogyakarta. Untuk informasi lainnya, silakan hubungi Dinsosnakertrans Kota Yogyakarta di nomor telepon atau datang langsung ke kantor."

/-- The fixed degraded-mode apology returned when the retrieval block
raises (main.py line 208). -/
def degradedMsg : String :=
  "Maaf, sistem sedang mengalami kendala. Silakan coba lagi atau hubungi Dinsosnakertrans Kota Yogyakarta."

/-- The request body of `POST /chat` (`ChatRequest`); `use_knowledge_base`
is accepted but strict mode always searches. -/
structure ChatRequest where
  user_id : String
  platform : String
  message : String
  use_knowledge_base : Bool := true
deriving DecidableEq, Repr

/-- The response body of `POST /chat` (`ChatResponse`). -/
structure ChatResponse where
  response : String
  timestamp : Int
  sources_used : Nat
deriving DecidableEq, Repr

/-- The observable outcome of one `chat` call: the HTTP-level result
(`Except` error = an `HTTPException` escaping the handler), the relational
store afterwards, and how many completion-provider calls were made. -/
structure ChatOutcome where
  result : Except String ChatResponse
  db : Db
  completionCalls : Nat
deriving Repr

/-- `chat` (main.py lines 152-261). External effects are inputs:
`retrieval` is the outcome of `await rag_service.search_knowledge_base`
(`Except.error` = the retrieval block raised; `Except.ok` = the passage
list, already threshold-filtered by the store), and `completion` is the
outcome of the single completion-provider call (`Except.error` = non-200
status or network failure, surfaced as an error; `Except.ok` = the
assistant text). Persistence of the two turns happens only after a
successful completion. -/
def chat (req : ChatRequest) (db : Db) (now : Int)
    (retrieval : Except String (List Passage))
    (completion : Except String String) : ChatOutcome :=
  let history := get_recent_context db req.user_id req.platform 24 now
  match retrieval with
  | .error _ =>
      { result := .ok ⟨degradedMsg, now, 0⟩, db := db, completionCalls := 0 }
  | .ok searchResults =>
      let sourcesCount := searchResults.length
      if sourcesCount = 0 then
        { result := .ok ⟨refusalMsg, now, 0⟩, db := db, completionCalls := 0 }
      else
        let systemPrompt := baseSystemPrompt
          ++ "\n\nInformasi dari knowledge base:\n\n"
          ++ knowledgeContext searchResults
        let _messages : List Msg :=
          ⟨"system", systemPrompt⟩ :: history ++ [⟨"user", req.message⟩]
        match completion with
        | .error e =>
            { result := .error ("Error: " ++ e), db := db
              completionCalls := 1 }
        | .ok aiResponse =>
            let db1 := add_message db req.user_id req.platform "user"
              req.message now
            let db2 := add_message db1 req.user_id req.platform "assistant"
              aiResponse now
            { result := .ok ⟨aiResponse, now, sourcesCount⟩, db := db2
              completionCalls := 1 }

/-- The configured embedding dimension (`EmbeddingService.dimension`,
nomic-embed-text). -/
def dimension : Nat := 768

/-- The zero vector `[0.0] * dimension` substituted on any failure. -/
def zeroVector : List ℚ := List.replicate dimension 0

/-- Outcome of one `POST /api/embeddings` call to the provider, per input
text (embeddings.py lines 62-94): a 200 response carrying an `embedding`
list (possibly of the wrong length, possibly empty when the key is
missing), a non-200 status, a timeout, a transport error, or any other
exception. -/
inductive EmbedResult where
  | ok (v : List ℚ)
  | httpError
  | timeout
  | requestError
  | otherError
deriving DecidableEq, Repr

/-- The per-text body of the loop in
`EmbeddingService.generate_embeddings`: on a 200 response the embedding is
kept only when non-empty and of the configured dimension; every other case
appends the zero vector. -/
def embedOne (env : String → EmbedResult) (text : String) : List ℚ :=
  match env text with
  | .ok v => if v = [] ∨ v.length ≠ dimension then zeroVector else v
  | .httpError => zeroVector
  | .timeout => zeroVector
  | .requestError => zeroVector
  | .otherError => zeroVector

/-- `EmbeddingService.generate_embeddings`: one vector per input text;
`outerFail` models an exception escaping the whole loop (embeddings.py
line 98), answered by the dummy all-zero batch. -/
def generate_embeddings (env : String → EmbedResult) (outerFail : Bool)
    (texts : List String) : List (List ℚ) :=
  if outerFail then texts.map (fun _ => zeroVector)
  else texts.map (embedOne env)

/-- `EmbeddingService.generate_embedding`: embeds the singleton batch and
returns its first vector when it has the configured dimension, else the
zero vector — never raising and never returning an empty list. -/
def generate_embedding (env : String → EmbedResult) (outerFail : Bool)
    (text : String) : List ℚ :=
  let embeddings := generate_embeddings env outerFail [text]
  match embeddings with
  | e :: _ => if e.length = dimension then e else zeroVector
  | [] => zeroVector

/-- `RAGService.search_knowledge_base`: embed the query, return `[]` when
the embedding is empty or of the wrong dimension, else consult the vector
store; any store failure (`qdrantSearch = .error`, covering the
`ValueError` and every other exception) also yields `[]`. The wrapper
never raises. -/
def search_knowledge_base (env : String → EmbedResult) (outerFail : Bool)
    (qdrantSearch : List ℚ → Except String (List Passage))
    (query : String) : List Passage :=
  let queryEmbedding := generate_embedding env outerFail query
  if queryEmbedding = [] ∨ queryEmbedding.length ≠ dimension then []
  else
    match qdrantSearch queryEmbedding with
    | .ok results => results
    | .error _ => []

/-- A point stored in the vector-store collection: id, vector, and the
`{text, metadata}` payload. -/
structure Point where
  id : String
  vector : List ℚ
  text : String
  metadata : List (String × String)
deriving DecidableEq, Repr

/-- An ingestion document `{id?, text, embedding, metadata}` passed to
`QdrantService.upsert_documents`. -/
structure Doc where
  docId : Option String
  text : String
  embedding : List ℚ
  metadata : List (String × String)
deriving DecidableEq, Repr

/-- `QdrantService._generate_id`: the md5 hex digest of the text; the
digest function of the external `hashlib` library is the parameter `h`. -/
def _generate_id (h : String → String) (text : String) : String :=
  h text

/-- The id assigned to a document by `upsert_documents`:
`doc.get("id") or self._generate_id(doc["text"])` — Python's `or` also
discards an explicit empty-string id. -/
def assignedId (h : String → String) (d : Doc) : String :=
  match d.docId with
  | some i => if i = "" then _generate_id h d.text else i
  | none => _generate_id h d.text

/-- The external vector store's upsert semantics for a single point
(Qdrant's contract): overwrite the point with the same id if present,
otherwise insert. -/
def storeUpsertPoint (store : List Point) (p : Point) : List Point :=
  if store.any (fun q => q.id == p.id) then
    store.map (fun q => if q.id == p.id then p else q)
  else store ++ [p]

/-- `QdrantService.upsert_documents`: build one point per document (id
assigned from the content hash when absent), hand the batch to the store,
and return the new store together with the reported count
(`len(points)`). -/
def upsert_documents (h : String → String) (store : List Point)
    (docs : List Doc) : List Point × Nat :=
  let points := docs.map
    (fun d => Point.mk (assignedId h d) d.embedding d.text d.metadata)
  (points.foldl storeUpsertPoint store, points.length)

/-- The pre-hash fingerprint input of `webhook_message`:
`f"{user_id}:{platform}:{message}"` — plain colon joining, no field
escaping. -/
def fingerprintInput (u p m : String) : String :=
  u ++ ":" ++ p ++ ":" ++ m

/-- The deduplication cache key `f"msg:{md5(...).hexdigest()}"`; the md5
hex digest of the external library is the parameter `h`. -/
def dedupKey (h : String → String) (u p m : String) : String :=
  "msg:" ++ h (fingerprintInput u p m)

/-- A value held under a dedup key: the `"processing"` in-flight marker or
a serialized final result (written by `json.dumps`, so never the literal
string `"processing"`). -/
inductive RVal where
  | processing
  | result (s : String)
deriving DecidableEq, Repr

/-- The distributed cache, as a key-value association list. Expiry is not
modelled: all claims are scoped to within the 30-second TTL. -/
abbrev CacheStore := List (String × RVal)

/-- `redis_client.get`. -/
def storeGet (st : CacheStore) (k : String) : Option RVal :=
  (st.find? (fun e => e.1 == k)).map (fun e => e.2)

/-- `redis_client.setex` (and the write half of `set ... nx=True`). -/
def storeSet (st : CacheStore) (k : String) (v : RVal) : CacheStore :=
  (st.filter (fun e => ¬ e.1 == k)) ++ [(k, v)]

/-- `redis_client.delete`. -/
def storeDel (st : CacheStore) (k : String) : CacheStore :=
  st.filter (fun e => ¬ e.1 == k)

/-- `redis_client.set(key, "processing", ex=30, nx=True)`: atomically set
the in-flight marker if the key is absent; report whether the lock was
acquired. -/
def storeSetnx (st : CacheStore) (k : String) : Bool × CacheStore :=
  match storeGet st k with
  | some _ => (false, st)
  | none => (true, storeSet st k RVal.processing)

/-- One webhook invocation: its dedup key and the outcome its
`await chat(...)` would produce (`Except.error` = the processing step
raises). -/
structure Proc where
  key : String
  outcome : Except String String
deriving Repr

/-- What a finished webhook invocation observably did: returned a cached
response verbatim, returned a freshly computed response, or raised an
`HTTPException`. -/
inductive POut where
  | cachedHit (s : String)
  | fresh (s : String)
  | errored
deriving DecidableEq, Repr

/-- Program counter of one invocation through `webhook_message`
(main.py lines 272-338). Each constructor is one atomic interaction with
the shared cache (or the local chat call):
`start` = the first `get`; `lockTry` = the `set nx`; `recheck` = the
`get` after the 0.5 s sleep; `exec` = `await chat(...)`;
`publish r` = the `setex` of the serialized result on success / the
`delete` + raise on failure. -/
inductive PC where
  | start
  | lockTry
  | recheck
  | exec
  | publish (r : Except String String)
  | done (o : POut)
deriving Repr

/-- One atomic step of one invocation: next cache state, next program
counter, and how many chat-processing executions (hence completion-provider
calls on the answering path) the step performed. -/
def pstep (p : Proc) (st : CacheStore) (pc : PC) : CacheStore × PC × Nat :=
  match pc with
  | .start =>
      match storeGet st p.key with
      | some (.result s) => (st, .done (.cachedHit s), 0)
      | _ => (st, .lockTry, 0)
  | .lockTry =>
      let r := storeSetnx st p.key
      if r.1 then (r.2, .exec, 0) else (r.2, .recheck, 0)
  | .recheck =>
      match storeGet st p.key with
      | some (.result s) => (st, .done (.cachedHit s), 0)
      | _ => (st, .exec, 0)
  | .exec => (st, .publish p.outcome, 1)
  | .publish (.ok r) =>
      (storeSet st p.key (.result r), .done (.fresh r), 0)
  | .publish (.error _) => (storeDel st p.key, .done .errored, 0)
  | .done o => (st, .done o, 0)

/-- Joint state of two interleaved webhook invocations. -/
structure Config where
  store : CacheStore
  pc1 : PC
  pc2 : PC
  runs : Nat
deriving Repr

/-- Schedule one atomic step of the chosen invocation (`true` = first). -/
def step (p1 p2 : Proc) (c : Config) (i : Bool) : Config :=
  if i then
    let r := pstep p1 c.store c.pc1
    { store := r.1, pc1 := r.2.1, pc2 := c.pc2, runs := c.runs + r.2.2 }
  else
    let r := pstep p2 c.store c.pc2
    { store := r.1, pc1 := c.pc1, pc2 := r.2.1, runs := c.runs + r.2.2 }

/-- Run a schedule (a list of invocation choices) from a configuration. -/
def runSched (p1 p2 : Proc) (c : Config) (sched : List Bool) : Config :=
  sched.foldl (step p1 p2) c

/-- Both invocations poised at their first cache read, empty cache, no
processing executed yet. -/
def initConfig : Config :=
  { store := [], pc1 := .start, pc2 := .start, runs := 0 }

/-- The schedule in which the first invocation runs to completion before
the second begins: a redelivery arriving after the first finished, within
the TTL. -/
def sequentialSched : List Bool :=
  [true, true, true, true, false, false, false, false]

/-- The race in which the second invocation loses the lock, and its single
post-sleep re-check still sees the in-flight marker because the winner has
not yet published: both invocations then process. -/
def contendedSched : List Bool :=
  [true, true, false, false, false, false, false, true, true]

/-- The favorable race: the loser's post-sleep re-check happens after the
winner published its result, so the loser returns the cached response. -/
def favorableSched : List Bool :=
  [true, true, false, false, true, true, false]

/-- Every vector produced by the per-text embedding body has the
configured dimension. -/
lemma embedOne_length (env : String → EmbedResult) (text : String) :
    (embedOne env text).length = dimension := by
  unfold embedOne
  cases henv : env text with
  | ok v =>
      by_cases hv : v = [] ∨ v.length ≠ dimension
      · simp [hv, zeroVector]
      · push_neg at hv
        simp [hv.1, hv.2, zeroVector]
  | httpError => simp [zeroVector]
  | timeout => simp [zeroVector]
  | requestError => simp [zeroVector]
  | otherError => simp [zeroVector]

/-- C1. Refusal path: when retrieval succeeds with zero passages at or
above threshold, `chat` returns the fixed refusal with `sources_used = 0`,
makes no completion-provider call, and leaves the relational store (users
and conversation turns) unchanged. -/
theorem chat_refusal_path (req : ChatRequest) (db : Db) (now : Int)
    (completion : Except String String) :
    chat req db now (Except.ok []) completion =
      { result := Except.ok ⟨refusalMsg, now, 0⟩, db := db
        completionCalls := 0 } := by
  rfl

/-- C3. Degraded-error path: when the retrieval block raises, `chat`
returns the fixed safe apology with `sources_used = 0`, terminal (a normal
response, not an error), with no completion-provider call and the store
unchanged — and the apology's wording differs from the no-knowledge
refusal. -/
theorem chat_degraded_path (req : ChatRequest) (db : Db) (now : Int)
    (e : String) (completion : Except String String) :
    chat req db now (Except.error e) completion =
      { result := Except.ok ⟨degradedMsg, now, 0⟩, db := db
        completionCalls := 0 } ∧
    degradedMsg ≠ refusalMsg := by
  exact ⟨rfl, by decide⟩

/-- C5. Answering path: with at least one retrieved passage and a
successful completion, `chat` makes exactly one completion-provider call,
appends exactly the user's turn then the assistant's turn to the
conversation table, and reports `sources_used` equal to the retrieved
passage count; when the completion call fails instead, the store is left
entirely unchanged and the failure surfaces as an error. -/
theorem chat_answering_path (req : ChatRequest) (db : Db) (now : Int)
    (p : Passage) (ps : List Passage) (ans err : String) :
    (chat req db now (Except.ok (p :: ps)) (Except.ok ans)).result =
      Except.ok ⟨ans, now, (p :: ps).length⟩ ∧
    (chat req db now (Except.ok (p :: ps)) (Except.ok ans)).completionCalls
      = 1 ∧
    (chat req db now (Except.ok (p :: ps)) (Except.ok ans)).db.convs =
      db.convs ++
        [⟨req.user_id, req.platform, "user", req.message, now⟩,
         ⟨req.user_id, req.platform, "assistant", ans, now⟩] ∧
    (chat req db now (Except.ok (p :: ps)) (Except.error err)).db = db ∧
    (chat req db now (Except.ok (p :: ps)) (Except.error err)).result =
      Except.error ("Error: " ++ err) ∧
    (chat req db now (Except.ok (p :: ps)) (Except.error err)).completionCalls = 1 := by
  refine ⟨rfl, rfl, ?_, rfl, rfl, rfl⟩
  simp [chat, add_message]

/-- C7. Embedding totality: `generate_embedding` always returns a vector
of exactly the configured dimension (768); `generate_embeddings` returns
one vector per input text, each of the configured dimension; and on
provider HTTP error, timeout, transport error, or a response whose vector
is empty or of the wrong dimension, the zero vector is substituted. -/
theorem embedding_totality (env : String → EmbedResult) (outerFail : Bool)
    (text : String) (texts : List String) :
    (generate_embedding env outerFail text).length = dimension ∧
    (generate_embeddings env outerFail texts).length = texts.length ∧
    ((generate_embeddings env outerFail texts).all
      (fun v => v.length == dimension)) = true ∧
    embedOne (fun _ => EmbedResult.httpError) text = zeroVector ∧
    embedOne (fun _ => EmbedResult.timeout) text = zeroVector ∧
    embedOne (fun _ => EmbedResult.requestError) text = zeroVector ∧
    (∀ v : List ℚ, embedOne (fun _ => EmbedResult.ok v) text = zeroVector
      ∨ embedOne (fun _ => EmbedResult.ok v) text = v) := by
  refine ⟨?_, ?_, ?_, rfl, rfl, rfl, ?_⟩
  · unfold generate_embedding generate_embeddings
    cases outerFail with
    | true => simp [zeroVector]
    | false =>
        simp only [if_neg, Bool.false_eq_true, not_false_iff, if_false,
          List.map_cons, List.map_nil]
        by_cases hd : (embedOne env text).length = dimension
        · simp [hd]
        · exact absurd (embedOne_length env text) hd
  · unfold generate_embeddings
    cases outerFail <;> simp
  · rw [List.all_eq_true]
    intro v hv
    unfold generate_embeddings at hv
    cases outerFail with
    | true =>
        simp only [if_pos, List.mem_map] at hv
        obtain ⟨t, _, ht⟩ := hv
        simp [← ht, zeroVector]
    | false =>
        simp only [Bool.false_eq_true, if_false, List.mem_map] at hv
        obtain ⟨t, _, ht⟩ := hv
        simp [← ht, embedOne_length]
  · intro v
    unfold embedOne
    by_cases hv : v = [] ∨ v.length ≠ dimension
    · left; simp [hv]
    · right; simp [hv]

/-- C4 counterexample: `get_or_create_user` looks up by `user_id` alone,
so the same `user_id` arriving on two different platforms does NOT yield
two distinct User rows: after creating ("a", "whatsapp"), a call for
("a", "instagram") returns the existing whatsapp row and leaves a single
row in the table — not the two rows the claim requires. -/
theorem get_or_create_user_not_pair_keyed :
    ¬ ((get_or_create_user
        (get_or_create_user [] "a" "whatsapp").2 "a" "instagram").2.length
          = 2) ∧
    (get_or_create_user
      (get_or_create_user [] "a" "whatsapp").2 "a" "instagram").2.length
        = 1 ∧
    (get_or_create_user
      (get_or_create_user [] "a" "whatsapp").2 "a" "instagram").1.platform
        = "whatsapp" := by
  refine ⟨?_, rfl, rfl⟩
  decide

/-- C4 amended: users are unique per `user_id` alone, and
`get_or_create_user` is an idempotent upsert-if-absent keyed on `user_id`
only: assuming at most one row per `user_id`, after the call exactly one
row with that `user_id` exists, and a repeated call — with the same or any
other platform — returns the same row and leaves the table unchanged. -/
theorem get_or_create_user_keyed_on_user_id (users : List UserRow)
    (uid pf pf' : String)
    (hinv : users.countP (fun u => u.user_id == uid) ≤ 1) :
    (get_or_create_user users uid pf).2.countP
      (fun u => u.user_id == uid) = 1 ∧
    get_or_create_user (get_or_create_user users uid pf).2 uid pf' =
      ((get_or_create_user users uid pf).1,
        (get_or_create_user users uid pf).2) := by
  unfold get_or_create_user
  cases hfind : users.find? (fun u => u.user_id == uid) with
  | some u =>
      have hmem := List.find?_some hfind
      have hpos : 0 < users.countP (fun u => u.user_id == uid) := by
        rw [List.countP_pos_iff]
        exact ⟨u, List.mem_of_find?_eq_some hfind, hmem⟩
      refine ⟨le_antisymm hinv hpos, ?_⟩
      simp [hfind]
  | none =>
      have hzero : users.countP (fun u => u.user_id == uid) = 0 := by
        rw [List.countP_eq_zero]
        exact List.find?_eq_none.mp hfind
      constructor
      · simp only [List.countP_append, hzero]
        simp [List.countP_cons]
      · simp only []
        rw [List.find?_append, hfind]
        simp

/-- Witness for the C4 amended theorem at a concrete input. -/
theorem get_or_create_user_keyed_on_user_id_witness :
    (get_or_create_user [] "a" "whatsapp").2.countP
      (fun u => u.user_id == "a") = 1 ∧
    get_or_create_user (get_or_create_user [] "a" "whatsapp").2 "a"
        "instagram" =
      ((get_or_create_user [] "a" "whatsapp").1,
        (get_or_create_user [] "a" "whatsapp").2) :=
  get_or_create_user_keyed_on_user_id [] "a" "whatsapp" "instagram"
    (by decide)

/-- Reverse-chronological comparison is transitive. -/
lemma descByTime_trans (a b c : ConversationRow) :
    descByTime a b = true → descByTime b c = true →
      descByTime a c = true := by
  simp only [descByTime, decide_eq_true_eq]
  omega

/-- Reverse-chronological comparison is total. -/
lemma descByTime_total (a b : ConversationRow) :
    (descByTime a b || descByTime b a) = true := by
  simp only [descByTime, Bool.or_eq_true, decide_eq_true_eq]
  omega

/-- Chronological comparison is transitive. -/
lemma ascByTime_trans (a b c : ConversationRow) :
    ascByTime a b = true → ascByTime b c = true → ascByTime a c = true := by
  simp only [ascByTime, decide_eq_true_eq]
  omega

/-- Chronological comparison is total. -/
lemma ascByTime_total (a b : ConversationRow) :
    (ascByTime a b || ascByTime b a) = true := by
  simp only [ascByTime, Bool.or_eq_true, decide_eq_true_eq]
  omega

/-- C6. History reads: `get_conversation_history` returns at most N turns,
obtained exactly as the N most recent rows in reverse-time order reversed
in memory to chronological (non-decreasing timestamp) order; and
`get_recent_context`'s row query returns only turns within the trailing
window `now - hours`, also in chronological order. -/
theorem history_reads (db : Db) (uid pf : String) (N mh hours : Nat)
    (now : Int) :
    (get_conversation_history db uid pf (some N) mh).length ≤ N ∧
    (conversationQuery db uid pf N).Pairwise
      (fun a b => a.timestamp ≤ b.timestamp) ∧
    get_conversation_history db uid pf (some N) mh =
      (((((db.convs.filter
          (fun c => c.user_id == uid && c.platform == pf)).mergeSort
            descByTime).take N).reverse).map
        (fun c => ⟨c.role, c.message⟩)) ∧
    ((recentQuery db uid pf hours now).all
      (fun c => decide (now - (hours : Int) * 3600 ≤ c.timestamp)))
        = true ∧
    (recentQuery db uid pf hours now).Pairwise
      (fun a b => a.timestamp ≤ b.timestamp) := by
  refine ⟨?_, ?_, rfl, ?_, ?_⟩
  · simp only [get_conversation_history, conversationQuery,
      List.length_map, List.length_reverse, List.length_take,
      Option.getD_some]
    exact inf_le_left
  · unfold conversationQuery
    rw [List.pairwise_reverse]
    have hs := List.sorted_mergeSort descByTime_trans descByTime_total
      (db.convs.filter (fun c => c.user_id == uid && c.platform == pf))
    have ht := List.Pairwise.sublist (List.take_sublist N _) hs
    exact ht.imp (fun hab => by
      simpa only [descByTime, decide_eq_true_eq] using hab)
  · rw [List.all_eq_true]
    intro c hc
    unfold recentQuery at hc
    rw [List.mem_mergeSort, List.mem_filter] at hc
    have h2 := hc.2
    simp only [Bool.and_eq_true] at h2
    exact h2.2
  · unfold recentQuery
    have hs := List.sorted_mergeSort ascByTime_trans ascByTime_total
      (db.convs.filter (fun c => c.user_id == uid && c.platform == pf
        && decide (now - (hours : Int) * 3600 ≤ c.timestamp)))
    exact hs.imp (fun hab => by
      simpa only [ascByTime, decide_eq_true_eq] using hab)

/-- Upserting a point and then another point with the same id is the same
as upserting only the second: the first leaves no residue. -/
lemma storeUpsertPoint_overwrite (s : List Point) (p p' : Point)
    (hid : p.id = p'.id) :
    storeUpsertPoint (storeUpsertPoint s p) p' = storeUpsertPoint s p' := by
  unfold storeUpsertPoint
  rw [← hid]
  cases h1 : s.any (fun q => q.id == p.id) with
  | true =>
      simp only [h1, if_true]
      have hany : (s.map (fun q => if q.id == p.id then p else q)).any
          (fun q => q.id == p.id) = true := by
        rw [List.any_eq_true] at h1 ⊢
        obtain ⟨q, hq, hqp⟩ := h1
        exact ⟨p, List.mem_map.mpr ⟨q, hq, by simp [hqp]⟩, by simp⟩
      rw [hany, if_pos rfl, List.map_map]
      apply List.map_congr_left
      intro a _
      by_cases hqa : a.id == p.id
      · simp [hqa, Function.comp]
      · simp [hqa, Function.comp]
  | false =>
      simp only [h1, Bool.false_eq_true, if_false]
      have hany : (s ++ [p]).any (fun q => q.id == p.id) = true := by
        rw [List.any_eq_true]
        exact ⟨p, List.mem_append_right _ (List.mem_singleton.mpr rfl),
          by simp⟩
      rw [hany, if_pos rfl, List.map_append]
      have hmaps : s.map (fun q => if q.id == p.id then p' else q) = s := by
        have hall : ∀ q ∈ s, (q.id == p.id) = false := by
          intro q hq
          by_contra hqc
          rw [← ne_eq, Bool.ne_false_iff] at hqc
          have : s.any (fun q => q.id == p.id) = true :=
            List.any_eq_true.mpr ⟨q, hq, hqc⟩
          rw [h1] at this
          exact Bool.false_ne_true this
        calc s.map (fun q => if q.id == p.id then p' else q)
            = s.map id := by
              apply List.map_congr_left
              intro a ha
              simp [hall a ha]
          _ = s := List.map_id s
      rw [hmaps]
      simp

/-- C9. Upsert idempotence by content hash: with no explicit id, the
assigned id is the digest of the document's text alone (hence
deterministic); upserting the same text twice — from any initial store —
leaves exactly what a single upsert of the second document leaves (an
update, not a duplicate); and from the empty store, two upserts of
identical text leave exactly one entry, holding that text under the
content-hash id. -/
theorem upsert_content_hash (h : String → String) (store : List Point)
    (t : String) (v₁ v₂ : List ℚ) (m₁ m₂ : List (String × String)) :
    assignedId h ⟨none, t, v₁, m₁⟩ = h t ∧
    assignedId h ⟨none, t, v₂, m₂⟩ = assignedId h ⟨none, t, v₁, m₁⟩ ∧
    (upsert_documents h (upsert_documents h store [⟨none, t, v₁, m₁⟩]).1
        [⟨none, t, v₂, m₂⟩]).1 =
      (upsert_documents h store [⟨none, t, v₂, m₂⟩]).1 ∧
    (upsert_documents h (upsert_documents h [] [⟨none, t, v₁, m₁⟩]).1
        [⟨none, t, v₂, m₂⟩]).1 = [⟨h t, v₂, t, m₂⟩] := by
  refine ⟨rfl, rfl, ?_, ?_⟩
  · simp only [upsert_documents, List.map_cons, List.map_nil,
      List.foldl_cons, List.foldl_nil]
    exact storeUpsertPoint_overwrite store _ _ rfl
  · simp only [upsert_documents, List.map_cons, List.map_nil,
      List.foldl_cons, List.foldl_nil]
    simp [storeUpsertPoint, assignedId, _generate_id]

/-- Running the winner to completion and then the loser: the loser's first
cache read hits the winner's published result; one processing execution in
total and both callers hold the same response. -/
lemma runSched_sequential (k r r2 : String) :
    runSched ⟨k, Except.ok r⟩ ⟨k, Except.ok r2⟩ initConfig
        sequentialSched =
      { store := [(k, RVal.result r)], pc1 := PC.done (POut.fresh r)
        pc2 := PC.done (POut.cachedHit r), runs := 1 } := by
  simp [runSched, sequentialSched, step, pstep, initConfig, storeGet,
    storeSet, storeSetnx, storeDel]

/-- The favorable race: the loser loses the lock, sleeps, and its single
re-check sees the winner's published result; one processing execution. -/
lemma runSched_favorable (k r r2 : String) :
    runSched ⟨k, Except.ok r⟩ ⟨k, Except.ok r2⟩ initConfig
        favorableSched =
      { store := [(k, RVal.result r)], pc1 := PC.done (POut.fresh r)
        pc2 := PC.done (POut.cachedHit r), runs := 1 } := by
  simp [runSched, favorableSched, step, pstep, initConfig, storeGet,
    storeSet, storeSetnx, storeDel]

/-- A failed first attempt deletes its key before surfacing the error. -/
lemma runSched_failure (k e r2 : String) :
    runSched ⟨k, Except.error e⟩ ⟨k, Except.ok r2⟩ initConfig
        [true, true, true, true] =
      { store := [], pc1 := PC.done POut.errored, pc2 := PC.start
        runs := 1 } := by
  simp [runSched, step, pstep, initConfig, storeGet, storeSet, storeSetnx,
    storeDel]

/-- After a failed first attempt, a fresh attempt for the same key runs
unhindered: it acquires the lock, processes, and publishes. -/
lemma runSched_failure_then_retry (k e r2 : String) :
    runSched ⟨k, Except.error e⟩ ⟨k, Except.ok r2⟩ initConfig
        sequentialSched =
      { store := [(k, RVal.result r2)], pc1 := PC.done POut.errored
        pc2 := PC.done (POut.fresh r2), runs := 2 } := by
  simp [runSched, sequentialSched, step, pstep, initConfig, storeGet,
    storeSet, storeSetnx, storeDel]

/-- C2 counterexample: two concurrent invocations with the same dedup key
(identical user, platform and message give identical keys for every digest
function) and the interleaving in which the loser's single post-sleep
re-check still sees the in-flight marker: BOTH invocations process —
two completion-provider calls — and each caller receives its own freshly
computed response, not a shared cached one. The claim's "exactly one
call / same cached response for all concurrent pairs" is therefore false. -/
theorem dedup_race_two_calls :
    (runSched ⟨dedupKey (fun s => s) "u1" "whatsapp" "halo", Except.ok "r1"⟩
        ⟨dedupKey (fun s => s) "u1" "whatsapp" "halo", Except.ok "r2"⟩
        initConfig contendedSched).runs = 2 ∧
    ¬ ((runSched ⟨dedupKey (fun s => s) "u1" "whatsapp" "halo",
          Except.ok "r1"⟩
        ⟨dedupKey (fun s => s) "u1" "whatsapp" "halo", Except.ok "r2"⟩
        initConfig contendedSched).runs = 1) ∧
    (runSched ⟨dedupKey (fun s => s) "u1" "whatsapp" "halo",
        Except.ok "r1"⟩
      ⟨dedupKey (fun s => s) "u1" "whatsapp" "halo", Except.ok "r2"⟩
      initConfig contendedSched).pc2 = PC.done (POut.fresh "r2") := by
  refine ⟨rfl, ?_, rfl⟩
  intro hcontra
  simp only [runSched, contendedSched, step, pstep, initConfig, storeGet,
    storeSet, storeSetnx, storeDel] at hcontra
  revert hcontra
  decide

/-- C2 amended: within the cache TTL, if the winning invocation publishes
its cached response before the losing invocation's (single, bounded)
post-sleep re-check — in particular whenever the duplicate arrives after
the winner finished — then side-effecting processing executes exactly
once, one completion-provider call is made, and both callers hold the
same response; when the re-check instead still sees the in-flight marker,
the loser deliberately falls through and processes as well. -/
theorem dedup_amended (h : String → String) (u p m r r2 : String) :
    runSched ⟨dedupKey h u p m, Except.ok r⟩
        ⟨dedupKey h u p m, Except.ok r2⟩ initConfig sequentialSched =
      { store := [(dedupKey h u p m, RVal.result r)]
        pc1 := PC.done (POut.fresh r), pc2 := PC.done (POut.cachedHit r)
        runs := 1 } ∧
    runSched ⟨dedupKey h u p m, Except.ok r⟩
        ⟨dedupKey h u p m, Except.ok r2⟩ initConfig favorableSched =
      { store := [(dedupKey h u p m, RVal.result r)]
        pc1 := PC.done (POut.fresh r), pc2 := PC.done (POut.cachedHit r)
        runs := 1 } :=
  ⟨runSched_sequential (dedupKey h u p m) r r2,
    runSched_favorable (dedupKey h u p m) r r2⟩

/-- C8. Dedup failure recovery: an invocation that acquires the key and
then fails during processing deletes the key before surfacing the error
(the cache is empty again), so a subsequent attempt for the same
fingerprint finds the key absent, acquires it, and processes to a fresh
published response — it is not starved by a stale in-flight marker. -/
theorem dedup_failure_recovery (h : String → String) (u p m e r2 : String) :
    (runSched ⟨dedupKey h u p m, Except.error e⟩
        ⟨dedupKey h u p m, Except.ok r2⟩ initConfig
        [true, true, true, true]).store = [] ∧
    (runSched ⟨dedupKey h u p m, Except.error e⟩
        ⟨dedupKey h u p m, Except.ok r2⟩ initConfig
        [true, true, true, true]).pc1 = PC.done POut.errored ∧
    storeGet (runSched ⟨dedupKey h u p m, Except.error e⟩
        ⟨dedupKey h u p m, Except.ok r2⟩ initConfig
        [true, true, true, true]).store (dedupKey h u p m) = none ∧
    (runSched ⟨dedupKey h u p m, Except.error e⟩
        ⟨dedupKey h u p m, Except.ok r2⟩ initConfig
        sequentialSched).pc2 = PC.done (POut.fresh r2) := by
  have h1 := runSched_failure (dedupKey h u p m) e r2
  have h2 := runSched_failure_then_retry (dedupKey h u p m) e r2
  refine ⟨?_, ?_, ?_, ?_⟩
  · rw [h1]
  · rw [h1]
  · rw [h1]; rfl
  · rw [h2]

/-- C10. The dedup fingerprint is not injective: the pre-hash string joins
the fields with bare colons and no escaping, so the distinct logical
messages (user "a:b", platform "c") and (user "a", platform "b:c") — same
message text — produce the identical pre-hash string, hence the identical
cache key for every digest function; within the TTL the second message is
answered verbatim with the first message's cached response, its own
processing never executing. -/
theorem fingerprint_not_injective (h : String → String) (m r : String) :
    (("a:b", "c") ≠ (("a" : String), ("b:c" : String))) ∧
    fingerprintInput "a:b" "c" m = fingerprintInput "a" "b:c" m ∧
    dedupKey h "a:b" "c" m = dedupKey h "a" "b:c" m ∧
    (runSched ⟨dedupKey h "a:b" "c" m, Except.ok r⟩
        ⟨dedupKey h "a" "b:c" m, Except.ok "other"⟩ initConfig
        sequentialSched).pc2 = PC.done (POut.cachedHit r) ∧
    (runSched ⟨dedupKey h "a:b" "c" m, Except.ok r⟩
        ⟨dedupKey h "a" "b:c" m, Except.ok "other"⟩ initConfig
        sequentialSched).runs = 1 := by
  have hkey : dedupKey h "a" "b:c" m = dedupKey h "a:b" "c" m := rfl
  refine ⟨by decide, rfl, rfl, ?_, ?_⟩
  · rw [hkey, runSched_sequential (dedupKey h "a:b" "c" m) r "other"]
  · rw [hkey, runSched_sequential (dedupKey h "a:b" "c" m) r "other"]

end Chatbot
